import Mathlib

/-!
# Shallow embedding of BufferedRaylib (`src/BufferedInput.hpp` / `src/BufferedInput.cpp`)

The library declares named input actions (button sets, combos, scalar axes,
2D vectors, four-way directional pads) and, once per frame, "pumps" each one:
it re-samples the hardware through the raylib backend, diffs against the
previously stored state, and fires the action's callback on a change.

Modelling conventions:
* raylib's polling primitives (`IsKeyDown`, `GetGamepadAxisMovement`, ...)
  are an external backend; one frame's worth of answers is a `Backend` record.
* C++ `float` values are modelled as `Rat`; raymath's `EPSILON = 0.000001f`
  becomes the rational `1 / 1000000`.  The claims under study concern data
  flow (which source is read, replace vs. accumulate, when a dispatch fires),
  not rounding.
* `uint8_t` arithmetic is `Nat` with an explicit `% 256` where the source
  accumulates into a `uint8_t`.
* The C++ `union` inside `Button` is modelled by two integer words
  (`word0`, `word1`): `keyboard`, `mouse` and `gamepad.id` all alias the
  first word while `gamepad.button` is the second word.  This is needed to
  embed the source faithfully, because `Button::pad` writes the `gamepad`
  union member while tagging the value `Type::Keyboard`, and `IsPressed`
  then reads the `keyboard` member.
* An `is::signals` callback is modelled by the value it would be invoked
  with: each `Pump` returns the updated action together with
  `Option (event record)`, `none` meaning the callback is not invoked.
* A `std::set<Button>` is modelled as the list of its elements (unique, in
  iteration order); `size()` is the list length.
-/

namespace BufferedRaylib

/-- raymath `Vector2` (float components modelled as rationals). -/
structure Vector2 where
  x : Rat
  y : Rat
deriving DecidableEq, Repr

/-- One frame of answers from the external raylib backend (§6 of the design:
`IsKeyDown`, `IsMouseButtonDown`, `IsGamepadButtonDown`,
`GetGamepadAxisMovement`, `GetMouseWheelMove`, `GetMouseWheelMoveV`,
`GetMousePosition`, `IsWindowFocused`).  Key, button and axis codes are
integers. -/
structure Backend where
  isKeyDown : Int → Bool
  isMouseButtonDown : Int → Bool
  isGamepadButtonDown : Int → Int → Bool
  getGamepadAxisMovement : Int → Int → Rat
  getMouseWheelMove : Rat
  getMouseWheelMoveV : Vector2
  getMousePosition : Vector2
  isWindowFocused : Bool

/-- raymath `EPSILON` (`0.000001f`). -/
def EPSILON : Rat := 1 / 1000000

/-- raymath `Vector2Equals`: componentwise comparison within
`EPSILON * max(1, max |component values|)`. -/
def Vector2Equals (p q : Vector2) : Bool :=
  decide (|p.x - q.x| ≤ EPSILON * max 1 (max |p.x| |q.x|)) &&
  decide (|p.y - q.y| ≤ EPSILON * max 1 (max |p.y| |q.y|))

/-- raymath `Vector2Subtract`. -/
def Vector2Subtract (p q : Vector2) : Vector2 := ⟨p.x - q.x, p.y - q.y⟩

/-- `Button::Type` (BufferedInput.hpp lines 75-80). -/
inductive ButtonType where
  | Invalid
  | Keyboard
  | Mouse
  | Gamepad
deriving DecidableEq, Repr

/-- `Button` (BufferedInput.hpp lines 74-103): a type tag plus a union.
`word0` holds `keyboard` / `mouse` / `gamepad.id` (they alias each other in
the C++ union); `word1` holds `gamepad.button`. -/
structure Button where
  type : ButtonType
  word0 : Int
  word1 : Int
deriving DecidableEq, Repr

/-- Union member `keyboard` (aliases `word0`). -/
def Button.keyboard (b : Button) : Int := b.word0

/-- Union member `mouse` (aliases `word0`). -/
def Button.mouse (b : Button) : Int := b.word0

/-- Union member `gamepad.id` (aliases `word0`). -/
def Button.gamepadId (b : Button) : Int := b.word0

/-- Union member `gamepad.button` (`word1`). -/
def Button.gamepadButton (b : Button) : Int := b.word1

/-- `Button::key` (hpp line 93): `{ Type::Keyboard, key }`. -/
def Button.key (keyCode : Int) : Button := ⟨ButtonType.Keyboard, keyCode, 0⟩

/-- `Button::btn` (hpp line 94): `{ Type::Mouse, {.mouse = button} }`. -/
def Button.btn (buttonCode : Int) : Button := ⟨ButtonType.Mouse, buttonCode, 0⟩

/-- `Button::mouse_button` (hpp line 95). -/
def Button.mouse_button (buttonCode : Int) : Button := Button.btn buttonCode

/-- `Button::pad` (hpp line 96), exactly as written in the source:
`{ Type::Keyboard, {.gamepad = {gamepad, button}} }` — the tag is
`Type::Keyboard` while the `gamepad` union member is the one written. -/
def Button.pad (buttonCode : Int) (gamepad : Int) : Button :=
  ⟨ButtonType.Keyboard, gamepad, buttonCode⟩

/-- `Button::joy` (hpp line 97): forwards to `pad`. -/
def Button.joy (buttonCode : Int) (gamepad : Int) : Button :=
  Button.pad buttonCode gamepad

/-- `Button::gamepad_button` (hpp line 98): forwards to `pad`. -/
def Button.gamepad_button (buttonCode : Int) (gamepad : Int) : Button :=
  Button.pad buttonCode gamepad

/-- `Button::IsPressed` (cpp lines 62-74): dispatch on the tag, reading the
corresponding union member; `Invalid` falls through to `false`. -/
def Button.IsPressed (env : Backend) (b : Button) : Bool :=
  match b.type with
  | ButtonType.Keyboard => env.isKeyDown b.keyboard
  | ButtonType.Mouse => env.isMouseButtonDown b.mouse
  | ButtonType.Gamepad => env.isGamepadButtonDown b.gamepadId b.gamepadButton
  | ButtonType.Invalid => false

/-- `Button::IsSetPressed` (cpp lines 76-81): a `uint8_t` accumulator summing
`IsPressed` over the set (each addition reduced mod 2^8). -/
def Button.IsSetPressed (env : Backend) (buttons : List Button) : Nat :=
  buttons.foldl (fun state b => (state + (if Button.IsPressed env b then 1 else 0)) % 256) 0

/-- Arguments of one invocation of a `ButtonAction` callback
(`void(std::string_view name, uint8_t state, bool wasPressed)`). -/
structure ButtonEvent where
  name : String
  state : Nat
  wasPressed : Bool
deriving DecidableEq, Repr

/-- `ButtonAction` data (hpp lines 105-110): button set, combo flag and the
`uint8_t last_state` (callback slot modelled by the emitted events). -/
structure ButtonAction where
  buttons : List Button
  combo : Bool
  last_state : Nat
deriving DecidableEq, Repr

/-- `ButtonAction::set` (hpp lines 131-133): `last_state` starts at its
member initializer `0`. -/
def ButtonAction.set (buttons : List Button) (combo : Bool) : ButtonAction :=
  ⟨buttons, combo, 0⟩

/-- `ButtonAction::button` (hpp lines 120-122): a one-element set. -/
def ButtonAction.button (b : Button) (combo : Bool) : ButtonAction :=
  ⟨[b], combo, 0⟩

/-- `ButtonAction::Pump` (cpp lines 89-98). -/
def ButtonAction.Pump (env : Backend) (name : String) (a : ButtonAction) :
    ButtonAction × Option ButtonEvent :=
  let state := Button.IsSetPressed env a.buttons
  if state ≠ a.last_state then
    if a.combo then
      let comboState : Bool := state == a.buttons.length
      let lastComboState : Bool := a.last_state == a.buttons.length
      if comboState ≠ lastComboState then
        ({ a with last_state := state },
         some ⟨name, if comboState then 1 else 0, lastComboState⟩)
      else ({ a with last_state := state }, none)
    else
      ({ a with last_state := state }, some ⟨name, state, a.last_state != 0⟩)
  else (a, none)

/-- `AxisAction::Type` (hpp lines 137-141). -/
inductive AxisType where
  | Invalid
  | Gamepad
  | MouseWheel
deriving DecidableEq, Repr

/-- `AxisAction::Gamepad` (hpp lines 143-146): gamepad index and axis id. -/
structure AxisGamepad where
  id : Int
  axis : Int
deriving DecidableEq, Repr

/-- Arguments of one invocation of an `AxisAction` callback
(`void(std::string_view name, float state, float delta)`). -/
structure AxisEvent where
  name : String
  state : Rat
  delta : Rat
deriving DecidableEq, Repr

/-- `AxisAction` data (hpp lines 136-152): source tag, the `gamepad` union
member, and `float last_state = 0`. -/
structure AxisAction where
  axis : AxisType
  gamepad : AxisGamepad
  last_state : Rat
deriving DecidableEq, Repr

/-- `AxisAction::gamepad_axis` (hpp lines 163-167), exactly as written in
the source: the tag is initialised to `AxisAction::Type::MouseWheel` while
the `gamepad` union member receives the selected gamepad and axis. -/
def AxisAction.gamepad_axis (axis : Int) (gamepad : Int) : AxisAction :=
  { axis := AxisType.MouseWheel, gamepad := ⟨gamepad, axis⟩, last_state := 0 }

/-- `AxisAction::mouse_wheel` (hpp lines 169-171); the unused `gamepad`
union member is left at zeroes. -/
def AxisAction.mouse_wheel : AxisAction :=
  { axis := AxisType.MouseWheel, gamepad := ⟨0, 0⟩, last_state := 0 }

/-- `AxisAction::Pump` (cpp lines 106-123): read this frame's movement from
the tagged source, add it to `state` when nonzero, dispatch on change.  The
`Invalid` tag only asserts in the source, leaving `state` untouched. -/
def AxisAction.Pump (env : Backend) (name : String) (a : AxisAction) :
    AxisAction × Option AxisEvent :=
  let state :=
    match a.axis with
    | AxisType.Gamepad =>
        let movement := env.getGamepadAxisMovement a.gamepad.id a.gamepad.axis
        if movement ≠ 0 then a.last_state + movement else a.last_state
    | AxisType.MouseWheel =>
        let movement := env.getMouseWheelMove
        if movement ≠ 0 then a.last_state + movement else a.last_state
    | AxisType.Invalid => a.last_state
  if state ≠ a.last_state then
    ({ a with last_state := state }, some ⟨name, state, state - a.last_state⟩)
  else (a, none)

/-- `VectorAction::Type` (hpp lines 175-182). -/
inductive VectorType where
  | Invalid
  | MouseWheel
  | MousePosition
  | GamepadAxes
deriving DecidableEq, Repr

/-- The `gamepad` union member of `VectorAction` (hpp lines 184-189). -/
structure GamepadAxisPair where
  horizontal : AxisGamepad
  vertical : AxisGamepad
deriving DecidableEq, Repr

/-- Arguments of one invocation of a `VectorAction` (or
`MultiButtonsAction`) callback
(`void(std::string_view name, Vector2 state, Vector2 delta)`). -/
structure VectorEvent where
  name : String
  state : Vector2
  delta : Vector2
deriving DecidableEq, Repr

/-- `VectorAction` data (hpp lines 174-191): source tag, the `gamepad`
union member, and `Vector2 last_state = {0, 0}`. -/
structure VectorAction where
  vector : VectorType
  gamepad : GamepadAxisPair
  last_state : Vector2
deriving DecidableEq, Repr

/-- `VectorAction::mouse_wheel` (hpp lines 202-204); the unused `gamepad`
union member is left at zeroes. -/
def VectorAction.mouse_wheel : VectorAction :=
  { vector := VectorType.MouseWheel, gamepad := ⟨⟨0, 0⟩, ⟨0, 0⟩⟩, last_state := ⟨0, 0⟩ }

/-- `VectorAction::mouse_position` (hpp lines 206-208). -/
def VectorAction.mouse_position : VectorAction :=
  { vector := VectorType.MousePosition, gamepad := ⟨⟨0, 0⟩, ⟨0, 0⟩⟩, last_state := ⟨0, 0⟩ }

/-- `VectorAction::gamepad_axes` (cpp lines 152-158): a negative
`gamepadVertical` is replaced by `gamepadHorizontal` before the axis pair
is stored. -/
def VectorAction.gamepad_axes (horizontal : Int) (vertical : Int)
    (gamepadHorizontal : Int) (gamepadVertical : Int) : VectorAction :=
  let gv := if gamepadVertical < 0 then gamepadHorizontal else gamepadVertical
  { vector := VectorType.GamepadAxes,
    gamepad := ⟨⟨gamepadHorizontal, horizontal⟩, ⟨gv, vertical⟩⟩,
    last_state := ⟨0, 0⟩ }

/-- `VectorAction::Pump` (cpp lines 131-150): `MouseWheel` and
`MousePosition` overwrite `state` with this frame's backend value, while
`GamepadAxes` adds both axis movements onto the previous state; dispatch
when `Vector2Equals` fails. -/
def VectorAction.Pump (env : Backend) (name : String) (a : VectorAction) :
    VectorAction × Option VectorEvent :=
  let state :=
    match a.vector with
    | VectorType.MouseWheel => env.getMouseWheelMoveV
    | VectorType.MousePosition => env.getMousePosition
    | VectorType.GamepadAxes =>
        ⟨a.last_state.x +
           env.getGamepadAxisMovement a.gamepad.horizontal.id a.gamepad.horizontal.axis,
         a.last_state.y +
           env.getGamepadAxisMovement a.gamepad.vertical.id a.gamepad.vertical.axis⟩
    | VectorType.Invalid => a.last_state
  if Vector2Equals state a.last_state then (a, none)
  else ({ a with last_state := state }, some ⟨name, state, Vector2Subtract state a.last_state⟩)

/-- `MultiButtonsAction::ButtonData<4>` (hpp lines 214-223) with the
direction array spelled out by index: `Up = 0`, `Down = 1`, `Left = 2`,
`Right = 3`.  `lasts` is carried but never read by `Pump`. -/
structure ButtonData4 where
  up : List Button
  down : List Button
  left : List Button
  right : List Button
  lasts : List Nat
  normalize : Bool
deriving DecidableEq, Repr

/-- `MultiButtonsAction` data (hpp lines 213-227); `last_state` is
value-initialised to `{0, 0}` by the factory's aggregate initialisation. -/
structure MultiButtonsAction where
  quadButtons : ButtonData4
  last_state : Vector2
deriving DecidableEq, Repr

/-- `MultiButtonsAction::quad` (hpp lines 238-242):
`out.quadButtons = {{up, down, left, right}, {}, normalized}`. -/
def MultiButtonsAction.quad (up down left right : List Button)
    (normalized : Bool) : MultiButtonsAction :=
  ⟨⟨up, down, left, right, [0, 0, 0, 0], normalized⟩, ⟨0, 0⟩⟩

/-- `MultiButtonsAction::Pump` (cpp lines 166-181): per direction, count the
pressed buttons and clamp the count to 1 when `normalize` is set; then
`state.x = Left - Right`, `state.y = Up - Down` (the `uint8_t` counts are
promoted to `int` for the subtraction); dispatch when `Vector2Equals`
fails. -/
def MultiButtonsAction.Pump (env : Backend) (name : String)
    (a : MultiButtonsAction) : MultiButtonsAction × Option VectorEvent :=
  let clampCount : Nat → Nat := fun s =>
    if a.quadButtons.normalize ∧ s > 0 then 1 else s
  let bsUp := clampCount (Button.IsSetPressed env a.quadButtons.up)
  let bsDown := clampCount (Button.IsSetPressed env a.quadButtons.down)
  let bsLeft := clampCount (Button.IsSetPressed env a.quadButtons.left)
  let bsRight := clampCount (Button.IsSetPressed env a.quadButtons.right)
  let state : Vector2 :=
    ⟨((bsLeft : Int) - (bsRight : Int) : Int), ((bsUp : Int) - (bsDown : Int) : Int)⟩
  if Vector2Equals state a.last_state then (a, none)
  else ({ a with last_state := state }, some ⟨name, state, Vector2Subtract state a.last_state⟩)

/-- One registry entry (`std::unique_ptr<Action>`): the closed sum of the
four concrete action variants (the `Invalid` tag is never produced by any
factory and the design mandates a closed variant type in a
reimplementation). -/
inductive AnyAction where
  | button : ButtonAction → AnyAction
  | axis : AxisAction → AnyAction
  | vector : VectorAction → AnyAction
  | multiButton : MultiButtonsAction → AnyAction
deriving DecidableEq, Repr

/-- One callback invocation, tagged by the variant that produced it. -/
inductive Dispatch where
  | button : ButtonEvent → Dispatch
  | axis : AxisEvent → Dispatch
  | vector : VectorEvent → Dispatch
  | multiButton : VectorEvent → Dispatch
deriving DecidableEq, Repr

/-- The per-entry body of `BufferedInput::PumpMessages` (cpp lines 186-196):
downcast on the tag and run that variant's `Pump` under the entry's name. -/
def AnyAction.Pump (env : Backend) (name : String) :
    AnyAction → AnyAction × Option Dispatch
  | AnyAction.button a =>
      let r := ButtonAction.Pump env name a
      (AnyAction.button r.1, r.2.map Dispatch.button)
  | AnyAction.axis a =>
      let r := AxisAction.Pump env name a
      (AnyAction.axis r.1, r.2.map Dispatch.axis)
  | AnyAction.vector a =>
      let r := VectorAction.Pump env name a
      (AnyAction.vector r.1, r.2.map Dispatch.vector)
  | AnyAction.multiButton a =>
      let r := MultiButtonsAction.Pump env name a
      (AnyAction.multiButton r.1, r.2.map Dispatch.multiButton)

/-- `BufferedInput` (hpp lines 253-267): the `std::map` from action name to
action, modelled as its entry list in key order. -/
structure BufferedInput where
  actions : List (String × AnyAction)
deriving DecidableEq, Repr

/-- `BufferedInput::PumpMessages` (cpp lines 183-198): skip the whole frame
when the window is unfocused and `whileUnfocused` is false; otherwise pump
every entry under its registered name.  The result pairs the updated
registry with the callback invocations in registry order. -/
def BufferedInput.PumpMessages (env : Backend) (whileUnfocused : Bool)
    (b : BufferedInput) : BufferedInput × List Dispatch :=
  if !whileUnfocused && !env.isWindowFocused then (b, [])
  else
    (⟨b.actions.map fun p => (p.1, (AnyAction.Pump env p.1 p.2).1)⟩,
     b.actions.filterMap fun p => (AnyAction.Pump env p.1 p.2).2)

/-! ## Concrete frames and actions used to instantiate the theorems -/

/-- A frame in which nothing is actuated and the window is focused. -/
def envNone : Backend :=
  { isKeyDown := fun _ => false
    isMouseButtonDown := fun _ => false
    isGamepadButtonDown := fun _ _ => false
    getGamepadAxisMovement := fun _ _ => 0
    getMouseWheelMove := 0
    getMouseWheelMoveV := ⟨0, 0⟩
    getMousePosition := ⟨0, 0⟩
    isWindowFocused := true }

/-- A frame in which exactly the listed keyboard keys are down. -/
def envKeys (keys : List Int) : Backend :=
  { envNone with isKeyDown := fun k => keys.contains k }

/-- A combo action over the two keyboard keys `A` (65) and `B` (66). -/
def comboAB : ButtonAction :=
  ButtonAction.set [Button.key 65, Button.key 66] true

/-- `comboAB` after a frame in which only `A` is down. -/
def comboAfter1 : ButtonAction :=
  (ButtonAction.Pump (envKeys [65]) "combo" comboAB).1

/-- `comboAfter1` after a frame in which both `A` and `B` are down. -/
def comboAfter2 : ButtonAction :=
  (ButtonAction.Pump (envKeys [65, 66]) "combo" comboAfter1).1

/-- A frame in which the window is unfocused and nothing is actuated. -/
def envUnfocused : Backend :=
  { envNone with isWindowFocused := false }

/-- A frame in which the gamepad axes report movement `5` and the mouse
wheel reports movement `7`, to tell the two axis sources apart. -/
def envAxis5Wheel7 : Backend :=
  { envNone with getGamepadAxisMovement := fun _ _ => 5, getMouseWheelMove := 7 }

/-- A frame in which every gamepad button is down and no key is down. -/
def envPadOnly : Backend :=
  { envNone with isGamepadButtonDown := fun _ _ => true }

/-- A frame whose mouse-wheel vector is `v`. -/
def envWheelV (v : Vector2) : Backend :=
  { envNone with getMouseWheelMoveV := v }

/-- A non-combo action over keys `A`/`B` whose stored count is `1`. -/
def anyAB1 : ButtonAction := ⟨[Button.key 65, Button.key 66], false, 1⟩

/-- A non-combo action over keys `A`/`B` whose stored count is `2`. -/
def anyAB2 : ButtonAction := ⟨[Button.key 65, Button.key 66], false, 2⟩

/-- Two keyboard controls (65 and 37) bound to the `Left` direction. -/
def leftAL : List Button := [Button.key 65, Button.key 37]

/-- A directional action with `leftAL` on `Left`, nothing elsewhere,
`normalize = true`. -/
def quadNormLeft : MultiButtonsAction :=
  MultiButtonsAction.quad [] [] leftAL [] true

/-- A directional action with `leftAL` on `Left`, nothing elsewhere,
`normalize = false`. -/
def quadRawLeft : MultiButtonsAction :=
  MultiButtonsAction.quad [] [] leftAL [] false

/-- The mouse-wheel vector action after one pump whose wheel vector was
`(5, 0)`. -/
def wheelAfter1 : VectorAction :=
  (VectorAction.Pump (envWheelV ⟨5, 0⟩) "scroll" VectorAction.mouse_wheel).1

/-- A one-entry registry holding the combo action `comboAB`. -/
def regOne : BufferedInput := ⟨[("combo", AnyAction.button comboAB)]⟩

/-! ## Helper lemmas -/

/-- The `uint8_t` count returned by `IsSetPressed` never exceeds the size of
the set: each member contributes at most 1 and the mod-256 reduction only
shrinks the accumulator. -/
theorem isSetPressed_le_length (env : Backend) (l : List Button) :
    Button.IsSetPressed env l ≤ l.length := by
  unfold Button.IsSetPressed
  suffices h : ∀ s : Nat,
      List.foldl (fun state b => (state + (if Button.IsPressed env b then 1 else 0)) % 256) s l ≤
        s + l.length by
    simpa using h 0
  induction l with
  | nil => intro s; simp
  | cons b tl ih =>
      intro s
      simp only [List.foldl_cons, List.length_cons]
      calc List.foldl (fun state b => (state + (if Button.IsPressed env b then 1 else 0)) % 256)
            ((s + if Button.IsPressed env b then 1 else 0) % 256) tl
          ≤ (s + if Button.IsPressed env b then 1 else 0) % 256 + tl.length := ih _
        _ ≤ s + (tl.length + 1) := by
            have hm := Nat.mod_le (s + if Button.IsPressed env b then 1 else 0) 256
            have h1 : (if Button.IsPressed env b then 1 else 0) ≤ 1 := by split <;> simp
            omega

/-- A `Vector2Equals` test fails outright when the x components are farther
apart than the tolerance allows, whatever the y components are. -/
theorem Vector2Equals_false_of_x (p q : Vector2)
    (h : ¬(|p.x - q.x| ≤ EPSILON * max 1 (max |p.x| |q.x|))) :
    Vector2Equals p q = false := by
  simp [Vector2Equals, h]

/-- One `ButtonAction::Pump` keeps the button set and keeps the stored
count below the set size. -/
theorem buttonAction_pump_invariant (env : Backend) (name : String)
    (a : ButtonAction) (h : a.last_state ≤ a.buttons.length) :
    ((ButtonAction.Pump env name a).1).buttons = a.buttons ∧
    ((ButtonAction.Pump env name a).1).last_state ≤ a.buttons.length := by
  have hle := isSetPressed_le_length env a.buttons
  simp only [ButtonAction.Pump]
  split
  · split
    · split
      · exact ⟨rfl, hle⟩
      · exact ⟨rfl, hle⟩
    · exact ⟨rfl, hle⟩
  · exact ⟨rfl, h⟩

/-! ## Claim theorems -/

/-- Claim C1 (confirmed): for a `ButtonAction` with `combo = true`, `Pump`
invokes the callback exactly when the boolean `newCount = |set|` differs
from the boolean `lastStoredCount = |set|`, and the invocation carries the
new combo-pressed boolean (as the 0/1 value of the `uint8_t` state
parameter, never the raw count) together with the previous combo-pressed
boolean.  In particular a change that stays strictly below `|set|` (such as
0 → 1 on a 2-control set) never dispatches, since both booleans are then
false. -/
theorem buttonAction_combo_boundary (env : Backend) (name : String)
    (a : ButtonAction) (hc : a.combo = true) :
    (ButtonAction.Pump env name a).2 =
      if (Button.IsSetPressed env a.buttons == a.buttons.length) ≠
         (a.last_state == a.buttons.length) then
        some ⟨name,
          if Button.IsSetPressed env a.buttons == a.buttons.length then 1 else 0,
          a.last_state == a.buttons.length⟩
      else none := by
  simp only [ButtonAction.Pump, hc, if_true]
  by_cases hs : Button.IsSetPressed env a.buttons = a.last_state
  · have hb : (Button.IsSetPressed env a.buttons == a.buttons.length) =
        (a.last_state == a.buttons.length) := by rw [hs]
    simp [hs, hb]
  · simp only [ne_eq, hs, not_false_iff, if_true, ite_true]
    split
    · simp_all
    · simp_all

/-- Witness for C1: the combo action over keys `A`, `B` with stored count 1
dispatches on the frame where both keys are down, per the boundary rule. -/
theorem buttonAction_combo_boundary_witness :
    (ButtonAction.Pump (envKeys [65, 66]) "combo" comboAfter1).2 =
      if (Button.IsSetPressed (envKeys [65, 66]) comboAfter1.buttons ==
            comboAfter1.buttons.length) ≠
         (comboAfter1.last_state == comboAfter1.buttons.length) then
        some ⟨"combo",
          if Button.IsSetPressed (envKeys [65, 66]) comboAfter1.buttons ==
              comboAfter1.buttons.length then 1 else 0,
          comboAfter1.last_state == comboAfter1.buttons.length⟩
      else none :=
  buttonAction_combo_boundary (envKeys [65, 66]) "combo" comboAfter1 (by decide)

/-- Counterexample to claim C2: after the frames "only A" (stored count 1)
and "A and B" (stored count 2), the frame "only B" is claimed to produce no
dispatch; in the code the drop from count 2 to count 1 crosses the
all-pressed boundary of the 2-control set, so `Pump` does dispatch. -/
theorem combo_partial_release_claim_false :
    comboAfter1.last_state = 1 ∧
    (ButtonAction.Pump (envKeys [65, 66]) "combo" comboAfter1).2.isSome = true ∧
    comboAfter2.last_state = 2 ∧
    (ButtonAction.Pump (envKeys [66]) "combo" comboAfter2).2 ≠ none := by decide

/-- Claim C2 as amended: in the same scenario the "only B" frame dispatches
the combo release — the callback receives state 0 and `wasPressed = true` —
and the stored count becomes 1. -/
theorem combo_partial_release_scenario :
    (ButtonAction.Pump (envKeys [65]) "combo" comboAB).2 = none ∧
    comboAfter1.last_state = 1 ∧
    (ButtonAction.Pump (envKeys [65, 66]) "combo" comboAfter1).2 =
      some ⟨"combo", 1, false⟩ ∧
    comboAfter2.last_state = 2 ∧
    (ButtonAction.Pump (envKeys [66]) "combo" comboAfter2).2 =
      some ⟨"combo", 0, true⟩ ∧
    (ButtonAction.Pump (envKeys [66]) "combo" comboAfter2).1.last_state = 1 := by
  decide

/-- Counterexample to claim C7: the callback's third parameter is declared
`bool wasPressed`, so the previous raw count is coerced to a boolean.  Two
non-combo actions over the same 2-control set whose stored counts differ
(1 versus 2) produce identical callback invocations on a frame with nothing
pressed — the previous raw count is not delivered intact. -/
theorem buttonAction_prev_count_collapsed :
    anyAB1.last_state ≠ anyAB2.last_state ∧
    (ButtonAction.Pump envNone "any" anyAB1).2 = some ⟨"any", 0, true⟩ ∧
    (ButtonAction.Pump envNone "any" anyAB2).2 = some ⟨"any", 0, true⟩ := by
  decide

/-- Claim C7 as amended: for a `ButtonAction` with `combo = false`, when the
freshly sampled count differs from the stored count, `Pump` dispatches
passing the new raw count and the boolean "previous count was nonzero" (the
`uint8_t last_state` is coerced to the callback's `bool wasPressed`
parameter); otherwise it does not dispatch. -/
theorem buttonAction_noncombo_dispatch (env : Backend) (name : String)
    (a : ButtonAction) (hc : a.combo = false) :
    (ButtonAction.Pump env name a).2 =
      if Button.IsSetPressed env a.buttons ≠ a.last_state then
        some ⟨name, Button.IsSetPressed env a.buttons, a.last_state != 0⟩
      else none := by
  simp only [ButtonAction.Pump, hc]
  split
  · rfl
  · rfl

/-- Witness for C7's amended theorem: the non-combo action with stored
count 2 over keys `A`, `B`, pumped on a frame with nothing pressed. -/
theorem buttonAction_noncombo_dispatch_witness :
    (ButtonAction.Pump envNone "any" anyAB2).2 =
      if Button.IsSetPressed envNone anyAB2.buttons ≠ anyAB2.last_state then
        some ⟨"any", Button.IsSetPressed envNone anyAB2.buttons,
          anyAB2.last_state != 0⟩
      else none :=
  buttonAction_noncombo_dispatch envNone "any" anyAB2 (by decide)

/-- Claim C9 (confirmed): a `ButtonAction` starts with stored aggregate
state 0, and after any sequence of pumped frames the stored aggregate state
never exceeds the size of its control set. -/
theorem buttonAction_state_bounded (envs : List Backend) (name : String)
    (buttons : List Button) (combo : Bool) :
    (ButtonAction.set buttons combo).last_state = 0 ∧
    (envs.foldl (fun a env => (ButtonAction.Pump env name a).1)
        (ButtonAction.set buttons combo)).last_state ≤ buttons.length := by
  refine ⟨rfl, ?_⟩
  suffices h : ∀ a : ButtonAction, a.buttons = buttons →
      a.last_state ≤ buttons.length →
      (envs.foldl (fun a env => (ButtonAction.Pump env name a).1) a).last_state ≤
        buttons.length by
    exact h _ rfl (Nat.zero_le _)
  induction envs with
  | nil => intro a hb hl; simpa using hl
  | cons e tl ih =>
      intro a hb hl
      simp only [List.foldl_cons]
      have hinv := buttonAction_pump_invariant e name a (hb ▸ hl)
      exact ih _ (hinv.1.trans hb) (by rw [hinv.1.trans hb] at hinv ⊢; exact (hb ▸ hinv.2))

/-- Counterexample to claim C3: with two controls bound to `Left`, no other
direction bound, and both `Left` controls pressed, the computed horizontal
component is `Left − Right = +1` when normalized (and `+2` raw), not `-1`
(`-2`) as the claim states. -/
theorem multiButtons_left_sign_claim_false :
    (MultiButtonsAction.Pump (envKeys [65, 37]) "move" quadNormLeft).1.last_state.x = 1 ∧
    (MultiButtonsAction.Pump (envKeys [65, 37]) "move" quadRawLeft).1.last_state.x = 2 ∧
    ¬((MultiButtonsAction.Pump (envKeys [65, 37]) "move" quadNormLeft).1.last_state.x = -1) := by
  have h1 : (MultiButtonsAction.Pump (envKeys [65, 37]) "move" quadNormLeft).1.last_state.x
      = 1 := by
    simp [MultiButtonsAction.Pump, MultiButtonsAction.quad, quadNormLeft, leftAL, Vector2Equals,
      EPSILON, Button.IsSetPressed, Button.IsPressed, Button.key, Button.keyboard, envKeys, envNone]
    norm_num
  have h2 : (MultiButtonsAction.Pump (envKeys [65, 37]) "move" quadRawLeft).1.last_state.x
      = 2 := by
    simp [MultiButtonsAction.Pump, MultiButtonsAction.quad, quadRawLeft, leftAL, Vector2Equals,
      EPSILON, Button.IsSetPressed, Button.IsPressed, Button.key, Button.keyboard, envKeys, envNone]
    norm_num
  refine ⟨h1, h2, ?_⟩
  rw [h1]
  norm_num

/-- Claim C3 as amended: for a quad-button directional action whose `Left`
set reports a pressed count of 2 while the `Right` set reports 0, pumping
stores horizontal component `+1` when `normalize = true` (the per-direction
count is clamped to 1) and `+2` when `normalize = false`; the sign is
positive because the code computes `state.x = Left − Right`. -/
theorem multiButtons_left_pressed_state (env : Backend) (name : String)
    (up down left right : List Button)
    (hL : Button.IsSetPressed env left = 2)
    (hR : Button.IsSetPressed env right = 0) :
    ((MultiButtonsAction.Pump env name
        (MultiButtonsAction.quad up down left right true)).1.last_state.x = 1) ∧
    ((MultiButtonsAction.Pump env name
        (MultiButtonsAction.quad up down left right false)).1.last_state.x = 2) := by
  constructor
  · simp only [MultiButtonsAction.Pump, MultiButtonsAction.quad, hL, hR]
    norm_num
    rw [Vector2Equals_false_of_x]
    · norm_num [EPSILON]
    · simp only [EPSILON]
      norm_num
  · simp only [MultiButtonsAction.Pump, MultiButtonsAction.quad, hL, hR]
    norm_num
    rw [Vector2Equals_false_of_x]
    · norm_num [EPSILON]
    · simp only [EPSILON]
      norm_num

/-- Witness for C3's amended theorem: both keys of `leftAL` down yields
pressed count 2 on `Left` and 0 on the empty `Right` set. -/
theorem multiButtons_left_pressed_state_witness :
    ((MultiButtonsAction.Pump (envKeys [65, 37]) "move"
        (MultiButtonsAction.quad [] [] leftAL [] true)).1.last_state.x = 1) ∧
    ((MultiButtonsAction.Pump (envKeys [65, 37]) "move"
        (MultiButtonsAction.quad [] [] leftAL [] false)).1.last_state.x = 2) :=
  multiButtons_left_pressed_state (envKeys [65, 37]) "move" [] [] leftAL []
    (by decide) (by decide)

/-- Counterexample to claim C4: a mouse-wheel-vector action whose stored
state is `(5, 0)` and which receives the wheel vector `(1, 0)` ends the pump
with state `(1, 0)` — the wheel vector replaces the state — not the
accumulated `(6, 0)` the claim predicts. -/
theorem vectorAction_wheel_claim_false :
    wheelAfter1.last_state = ⟨5, 0⟩ ∧
    (VectorAction.Pump (envWheelV ⟨1, 0⟩) "scroll" wheelAfter1).1.last_state = ⟨1, 0⟩ ∧
    (VectorAction.Pump (envWheelV ⟨1, 0⟩) "scroll" wheelAfter1).1.last_state ≠ ⟨6, 0⟩ := by
  have h0 : wheelAfter1 = ⟨VectorType.MouseWheel, ⟨⟨0, 0⟩, ⟨0, 0⟩⟩, ⟨5, 0⟩⟩ := by
    simp only [wheelAfter1, VectorAction.Pump, VectorAction.mouse_wheel, envWheelV, envNone,
      Vector2Equals, EPSILON]
    norm_num
  have h1 : (VectorAction.Pump (envWheelV ⟨1, 0⟩) "scroll" wheelAfter1).1.last_state
      = ⟨1, 0⟩ := by
    rw [h0]
    simp only [VectorAction.Pump, envWheelV, envNone, Vector2Equals, EPSILON]
    norm_num
  refine ⟨by rw [h0], h1, by rw [h1]; norm_num [Vector2.mk.injEq]⟩

/-- Claim C4 as amended: a Vector Action with the mouse-wheel-vector source
replaces its state with this frame's wheel vector (absolute, not
accumulated), and one with the mouse-position source replaces its state
with the absolute pointer position; in both cases the stored state is left
untouched when the new value is `Vector2Equals`-equal to the old. -/
theorem vectorAction_absolute_sources (env : Backend) (name : String)
    (g : GamepadAxisPair) (v : Vector2) :
    (VectorAction.Pump env name ⟨VectorType.MouseWheel, g, v⟩).1.last_state =
      (if Vector2Equals env.getMouseWheelMoveV v then v
       else env.getMouseWheelMoveV) ∧
    (VectorAction.Pump env name ⟨VectorType.MousePosition, g, v⟩).1.last_state =
      (if Vector2Equals env.getMousePosition v then v
       else env.getMousePosition) := by
  constructor <;>
  · simp only [VectorAction.Pump]
    split <;> simp_all

/-- Claim C5 evaluated at the failing input: `AxisAction::gamepad_axis`
stores the selected gamepad and axis but tags the action
`AxisAction::Type::MouseWheel` (BufferedInput.hpp line 164), so on a frame
where the gamepad axes move by 5 and the wheel by 7, `Pump` adds the
wheel's 7 — it reads `GetMouseWheelMove`, not
`GetGamepadAxisMovement(gamepad, axis)`. -/
theorem axisAction_gamepad_axis_reads_wheel :
    (AxisAction.gamepad_axis 3 2).axis = AxisType.MouseWheel ∧
    (AxisAction.gamepad_axis 3 2).gamepad = ⟨2, 3⟩ ∧
    (AxisAction.Pump envAxis5Wheel7 "throttle" (AxisAction.gamepad_axis 3 2)).1.last_state = 7 ∧
    (AxisAction.Pump envAxis5Wheel7 "throttle" (AxisAction.gamepad_axis 3 2)).2 =
      some ⟨"throttle", 7, 7⟩ := by
  refine ⟨rfl, rfl, ?_, ?_⟩ <;>
  · simp [AxisAction.Pump, AxisAction.gamepad_axis, envAxis5Wheel7, envNone]

/-- Claim C6 evaluated at the failing input: `Button::pad` tags the control
`Type::Keyboard` while writing the gamepad union member
(BufferedInput.hpp line 96), so `IsPressed` reads the aliased `keyboard`
word — the gamepad index — and queries `IsKeyDown(gamepadIndex)`: the
control reads as released on a frame where every gamepad button is down,
and as pressed on a frame where keyboard key 0 (the gamepad index) is
down. -/
theorem button_pad_keyboard_tagged :
    (Button.pad 5 0).type = ButtonType.Keyboard ∧
    Button.IsPressed envPadOnly (Button.pad 5 0) = false ∧
    Button.IsPressed (envKeys [0]) (Button.pad 5 0) = true := by decide

/-- Claim C8 (confirmed): `PumpMessages` returns the registry and an empty
dispatch list untouched when the window is unfocused and `whileUnfocused`
is false; otherwise it pumps every registered entry exactly once under its
registered name, collecting the dispatches in registry order. -/
theorem pumpMessages_focus_gate (env : Backend) (w : Bool) (b : BufferedInput) :
    (env.isWindowFocused = false → w = false →
      BufferedInput.PumpMessages env w b = (b, [])) ∧
    (w = true ∨ env.isWindowFocused = true →
      BufferedInput.PumpMessages env w b =
        (⟨b.actions.map fun p => (p.1, (AnyAction.Pump env p.1 p.2).1)⟩,
         b.actions.filterMap fun p => (AnyAction.Pump env p.1 p.2).2)) := by
  constructor
  · intro hf hw
    simp [BufferedInput.PumpMessages, hf, hw]
  · intro hw
    rcases hw with hw | hf
    · simp [BufferedInput.PumpMessages, hw]
    · simp [BufferedInput.PumpMessages, hf]

/-- Witness for C8: the gate at an unfocused frame, and the per-entry pump
of a one-action registry at a focused frame. -/
theorem pumpMessages_focus_gate_witness :
    BufferedInput.PumpMessages envUnfocused false regOne = (regOne, []) ∧
    BufferedInput.PumpMessages (envKeys [65, 66]) false regOne =
      (⟨regOne.actions.map fun p => (p.1, (AnyAction.Pump (envKeys [65, 66]) p.1 p.2).1)⟩,
       regOne.actions.filterMap fun p => (AnyAction.Pump (envKeys [65, 66]) p.1 p.2).2) :=
  ⟨(pumpMessages_focus_gate envUnfocused false regOne).1 rfl rfl,
   (pumpMessages_focus_gate (envKeys [65, 66]) false regOne).2 (Or.inr rfl)⟩

/-- Claim C10 (confirmed): `VectorAction::gamepad_axes` binds the
horizontal axis to gamepad `gamepadH`, and binds the vertical axis to
`gamepadH` whenever `gamepadV` is negative (the default is `-1`) and to
`gamepadV` unchanged otherwise. -/
theorem vectorAction_gamepad_axes_ids (horizontal vertical gamepadH gamepadV : Int) :
    (VectorAction.gamepad_axes horizontal vertical gamepadH gamepadV).gamepad.horizontal =
      ⟨gamepadH, horizontal⟩ ∧
    (VectorAction.gamepad_axes horizontal vertical gamepadH gamepadV).gamepad.vertical =
      ⟨if gamepadV < 0 then gamepadH else gamepadV, vertical⟩ ∧
    (VectorAction.gamepad_axes horizontal vertical gamepadH gamepadV).vector =
      VectorType.GamepadAxes :=
  ⟨rfl, rfl, rfl⟩

end BufferedRaylib
